import Mathlib

/-!
Verification of the erfgoedbot webhook relay (`src/app.js`).

The JavaScript source is shallowly embedded: each handler becomes a pure
Lean function from its inputs to the list of outbound send actions it
performs (immediate or scheduled with a delay in milliseconds), plus the
search-collaborator call it issues.  Asynchronous callbacks are embedded
as separate functions on the callback's arguments; `setTimeout` becomes a
`Send.delayed` entry carrying the delay.  The lodash `_.random(lo, hi)`
draw is represented by a function of an arbitrary seed whose value always
lies in the inclusive range `[lo, hi]`.
-/

namespace Erfgoedbot

/-! ## JavaScript string primitives used by the source -/

/-- One step of JavaScript `String.prototype.trim`: drop leading whitespace
from a character list. -/
def jsTrimLeftChars : List Char → List Char
  | [] => []
  | c :: cs => if c.isWhitespace then jsTrimLeftChars cs else c :: cs

/-- JavaScript `String.prototype.trim`: strip whitespace from both ends. -/
def jsTrim (s : String) : String :=
  String.mk (jsTrimLeftChars (jsTrimLeftChars s.data.reverse).reverse)

/-- JavaScript `String.prototype.toLowerCase` (ASCII range, which is all the
source compares against). -/
def jsToLower (s : String) : String :=
  String.mk (s.data.map Char.toLower)

/-- The normalisation applied to every inbound message text in
`receivedMessage`: `messageText.trim().toLowerCase()`. -/
def jsNormalize (s : String) : String :=
  jsToLower (jsTrim s)

/-- JavaScript `String.prototype.split` with a one-character separator:
splits at every occurrence, keeping empty pieces, and yields `[s]` when the
separator does not occur. -/
def splitOnChar (c : Char) : List Char → List (List Char)
  | [] => [[]]
  | x :: xs =>
    let r := splitOnChar c xs
    if x = c then [] :: r
    else
      match r with
      | [] => [[x]]
      | y :: ys => (x :: y) :: ys

/-- `s.split(c)` on strings, via `splitOnChar`. -/
def jsSplit (s : String) (c : Char) : List String :=
  (splitOnChar c s.data).map String.mk

/-- JavaScript truthiness of an optional string field: absent and the empty
string are falsy, every other string is truthy. -/
def jsTruthyStr : Option String → Bool
  | none => false
  | some s => if s = "" then false else true

/-! ## Data model -/

/-- One button of a button-template message (`title` shown, `payload`
delivered back on tap as a postback). -/
structure ButtonItem where
  title : String
  payload : String
deriving DecidableEq

/-- Argument shape of `sendButtonMessage`: a text plus the button list. -/
structure ButtonSpec where
  text : String
  data : List ButtonItem
deriving DecidableEq

/-- The `images` payload of a search result, as read by the handlers:
`id`, `image`, `label`, `description` are always read; `url`, `collection`
and `author` are only read on the postback path and may be absent. -/
structure ImageResult where
  id : String
  image : String
  label : String
  description : String
  url : Option String
  collection : Option String
  author : String
deriving DecidableEq

/-- `SearchResult`: the tagged union delivered by the search collaborator
(`data.type` is one of `buttons`, `images`, `text`). -/
inductive SearchResult where
  | buttons (buttons : ButtonSpec)
  | images (images : ImageResult)
  | text (text : String)
deriving DecidableEq

/-- One call on the search collaborator `bot`. -/
inductive BotCall where
  | painterByDate (dateB dateA : String)
  | getMonuments
  | randomArtist
  | searchPainters (query : String)
  | paintingsByArtist (artistId : String)
deriving DecidableEq

/-- One outbound Send-API action, keyed by the helper of `app.js` that
issues it. -/
inductive SendAction where
  | textMsg (recipientId text : String)
  | imageMsg (recipientId url : String)
  | buttonMsg (recipientId : String) (buttons : ButtonSpec)
  | urlMsg (recipientId url : String)
  | typingOn (recipientId : String)
  | typingOff (recipientId : String)
deriving DecidableEq

/-- An outbound action, either issued immediately or scheduled by
`setTimeout` with the given delay in milliseconds. -/
inductive Send where
  | immediate (action : SendAction)
  | delayed (delayMs : Nat) (action : SendAction)
deriving DecidableEq

/-- The `quick_reply` object of a message (only its payload is read). -/
structure QuickReply where
  payload : String
deriving DecidableEq

/-- The `message` object of a messaging event, restricted to the fields
`receivedMessage` reads. -/
structure MessageContent where
  is_echo : Bool
  mid : String
  text : Option String
  quick_reply : Option QuickReply
deriving DecidableEq

/-! ## lodash random and the social-proof message -/

/-- Modelled from the spec: lodash `_.random(lo, hi)` returns a
pseudo-random integer with both bounds inclusive; the draw is embedded as a
function of an arbitrary seed reduced into the inclusive range. -/
def lodashRandom (lo hi seed : Nat) : Nat :=
  lo + seed % (hi - lo + 1)

/-- The randomized social-proof text scheduled by `sendImageMessage`, with
the two draws `_.random(8, 50)` and `_.random(2, 4)` taken from the seeds. -/
def socialProofText (seed1 seed2 : Nat) : String :=
  toString (lodashRandom 8 50 seed1) ++ " mensen zagen deze afbeelding ook, " ++
    toString (lodashRandom 2 4 seed2) ++ " mensen kijken op dit moment"

/-! ## Outbound helpers of `app.js` -/

/-- `sendImageMessage(recipientId, url)`: appends the literal `?width=800`
to the url, posts the image attachment, and schedules the randomized
social-proof text 4000 ms later.  (The code after its `return` statement is
unreachable and is not modelled.) -/
def sendImageMessage (recipientId url : String) (seed1 seed2 : Nat) : List Send :=
  [ Send.immediate (SendAction.imageMsg recipientId (url ++ "?width=800")),
    Send.delayed 4000 (SendAction.textMsg recipientId (socialProofText seed1 seed2)) ]

/-! ## Message path (`receivedMessage` and its search callback) -/

/-- The nested `handleSearchResponse(err, data)` callback of
`receivedMessage`: always turns typing off first; on error sends the error
text; otherwise three independent checks of `data.type` fire the matching
sends. -/
def handleSearchResponse (senderID : String) (result : Except String SearchResult)
    (seed1 seed2 : Nat) : List Send :=
  Send.immediate (SendAction.typingOff senderID) ::
    match result with
    | Except.error err => [Send.immediate (SendAction.textMsg senderID err)]
    | Except.ok data =>
      (match data with
       | SearchResult.buttons bs => [Send.immediate (SendAction.buttonMsg senderID bs)]
       | _ => []) ++
      (match data with
       | SearchResult.images imgs =>
         Send.immediate (SendAction.textMsg senderID
             ("Je gaat zo zien: " ++ imgs.label ++ ", " ++ imgs.description)) ::
           sendImageMessage senderID imgs.image seed1 seed2 ++
           [Send.delayed 3000 (SendAction.urlMsg senderID
             ("http://www.wikidata.org/wiki/" ++ imgs.id))]
       | _ => []) ++
      (match data with
       | SearchResult.text t => [Send.immediate (SendAction.textMsg senderID t)]
       | _ => [])

/-- The keyword classification of `receivedMessage` on the normalised text:
a hyphen routes to `painterByDate(dates[1], dates[0])`, then the exact
matches `utrecht` and `surprise`, then the general painter search. -/
def classifyMessage (parsedMsg : String) : BotCall :=
  if '-' ∈ parsedMsg.data then
    let dates := jsSplit parsedMsg '-'
    BotCall.painterByDate (dates.getD 1 "") (dates.getD 0 "")
  else if parsedMsg = "utrecht" then BotCall.getMonuments
  else if parsedMsg = "surprise" then BotCall.randomArtist
  else BotCall.searchPainters parsedMsg

/-- `receivedMessage(event)`: echoes are only logged; a quick reply gets a
fixed acknowledgment; truthy text sends the searching acknowledgment plus
typing-on and issues the classified search call; otherwise the
fixed fallback text.  Returns the immediate sends and the search call. -/
def receivedMessage (senderID : String) (message : MessageContent) :
    List Send × Option BotCall :=
  if message.is_echo then
    ([], none)
  else
    match message.quick_reply with
    | some _ => ([Send.immediate (SendAction.textMsg senderID "Quick reply tapped")], none)
    | none =>
      match message.text with
      | some t =>
        if t = "" then
          ([Send.immediate (SendAction.textMsg senderID "Sorry, dit snap ik even niet.")], none)
        else
          ([Send.immediate (SendAction.textMsg senderID
              "Ik ben nu aan het zoeken, een momentje..."),
            Send.immediate (SendAction.typingOn senderID)],
           some (classifyMessage (jsNormalize t)))
      | none =>
        ([Send.immediate (SendAction.textMsg senderID "Sorry, dit snap ik even niet.")], none)

/-! ## Postback path (`receivedPostback` and its search callback) -/

/-- `const moreUrl = data.images.url ? data.images.url : wikidata-fallback`
inside the postback callback. -/
def postbackMoreUrl (imgs : ImageResult) : String :=
  if jsTruthyStr imgs.url then imgs.url.getD ""
  else "http://www.wikidata.org/wiki/" ++ imgs.id

/-- The `paintingsByArtist` callback of `receivedPostback`: errors become a
text; an `images` result sends caption and image, and when the result
carries a truthy `collection` additionally schedules, 5000 ms later, the
collection text, the link to `moreUrl`, and the another-work button whose
payload is the result's `author`. -/
def postbackSearchCallback (senderID : String) (result : Except String SearchResult)
    (seed1 seed2 : Nat) : List Send :=
  match result with
  | Except.error err =>
    [Send.immediate (SendAction.textMsg senderID ("Er ging iets mis: " ++ err))]
  | Except.ok data =>
    match data with
    | SearchResult.images imgs =>
      Send.immediate (SendAction.textMsg senderID
          ("Je gaat zo zien: " ++ imgs.label ++ ", " ++ imgs.description)) ::
        sendImageMessage senderID imgs.image seed1 seed2 ++
        (if jsTruthyStr imgs.collection then
          [ Send.delayed 5000 (SendAction.textMsg senderID
              ("Dit kun je trouwens zien in de collectie van " ++ imgs.collection.getD "")),
            Send.delayed 5000 (SendAction.urlMsg senderID (postbackMoreUrl imgs)),
            Send.delayed 5000 (SendAction.buttonMsg senderID
              (ButtonSpec.mk "Nog een werk van deze schilder?"
                [ButtonItem.mk "Ja, leuk!" imgs.author])) ]
         else [])
    | _ => []

/-- `receivedPostback(event)` synchronous part: issues the
`paintingsByArtist` search call and immediately sends the fetching
acknowledgment text. -/
def receivedPostback (senderID payload : String) : List Send × BotCall :=
  ([Send.immediate (SendAction.textMsg senderID "Ik ben nu een schilderij aan het ophalen...")],
   BotCall.paintingsByArtist payload)

/-! ## Event dispatcher and webhook endpoint -/

/-- A messaging event as seen by the dispatcher: the JavaScript truthiness
of each of the six tag fields it sniffs. -/
structure MessagingEvent where
  optin : Bool
  message : Bool
  delivery : Bool
  postback : Bool
  read : Bool
  account_linking : Bool
deriving DecidableEq

/-- The handler an event is routed to (`unknown` is the logged
fall-through). -/
inductive Handler where
  | authentication
  | message
  | deliveryConfirmation
  | postback
  | messageRead
  | accountLink
  | unknown
deriving DecidableEq

/-- The dispatch chain of the `POST /webhook` handler in `app.js`, with the
tag checks in the order the source writes them: `optin`, `message`,
`delivery`, `postback`, `read`, `account_linking`. -/
def dispatch (e : MessagingEvent) : Handler :=
  if e.optin then Handler.authentication
  else if e.message then Handler.message
  else if e.delivery then Handler.deliveryConfirmation
  else if e.postback then Handler.postback
  else if e.read then Handler.messageRead
  else if e.account_linking then Handler.accountLink
  else Handler.unknown

/-- Modelled from the spec's words, for comparison with `dispatch`: the
dispatcher with the tag checks in the priority order the spec lists —
`message`, `postback`, `delivery`, `read`, `optin`, `accountLink`. -/
def dispatchSpecOrder (e : MessagingEvent) : Handler :=
  if e.message then Handler.message
  else if e.postback then Handler.postback
  else if e.delivery then Handler.deliveryConfirmation
  else if e.read then Handler.messageRead
  else if e.optin then Handler.authentication
  else if e.account_linking then Handler.accountLink
  else Handler.unknown

/-- Whether the tag selecting a given handler is present on the event. -/
def tagPresence (e : MessagingEvent) : Handler → Bool
  | Handler.authentication => e.optin
  | Handler.message => e.message
  | Handler.deliveryConfirmation => e.delivery
  | Handler.postback => e.postback
  | Handler.messageRead => e.read
  | Handler.accountLink => e.account_linking
  | Handler.unknown => true

/-- The first handler in a priority list whose tag is present on the event;
`unknown` when none matches. -/
def firstMatch (e : MessagingEvent) : List Handler → Handler
  | [] => Handler.unknown
  | h :: hs => if tagPresence e h then h else firstMatch e hs

/-- The priority order actually written in `app.js`. -/
def actualPriority : List Handler :=
  [Handler.authentication, Handler.message, Handler.deliveryConfirmation,
   Handler.postback, Handler.messageRead, Handler.accountLink]

/-- A batched page entry: its list of messaging events. -/
structure PageEntry where
  messaging : List MessagingEvent
deriving DecidableEq

/-- The webhook envelope: the `object` discriminator and the entry list. -/
structure WebhookEnvelope where
  object : String
  entry : List PageEntry
deriving DecidableEq

/-- One observable action of the `POST /webhook` route: invoking a handler
on an event, or answering the HTTP caller with a status. -/
inductive WebhookAction where
  | handle (h : Handler)
  | respond (status : Nat)
deriving DecidableEq

/-- The handler invocations performed by the two nested `forEach` loops, in
order. -/
def webhookDispatches (d : WebhookEnvelope) : List WebhookAction :=
  (d.entry.map fun pe => pe.messaging.map fun ev => WebhookAction.handle (dispatch ev)).flatten

/-- The `POST /webhook` route: when `data.object == 'page'` it runs every
dispatch and then `res.sendStatus(200)`; otherwise it does nothing (no
response is sent). -/
def webhookPost (d : WebhookEnvelope) : List WebhookAction :=
  if d.object = "page" then webhookDispatches d ++ [WebhookAction.respond 200]
  else []

/-! ## Signature verification -/

/-- Outcome of `verifyRequestSignature`: `pass` (falls through silently),
`passLogged` (header absent: the failure is only logged and processing
continues), or `fatal` (the thrown verification error). -/
inductive VerifyOutcome where
  | pass
  | passLogged
  | fatal
deriving DecidableEq

/-- `verifyRequestSignature(req, res, buf)`: with no `x-hub-signature`
header it only logs; otherwise it splits the header at `=`, compares
`elements[1]` against the HMAC-SHA1 hex digest of the body under the app
secret, and throws on mismatch.  `elements[0]` (the algorithm name) is
extracted in the source but never compared.  The digest itself is computed
by the external `crypto` module, embedded here as the function argument
`hmacHex`. -/
def verifyRequestSignature (hmacHex : String → String → String) (secret : String)
    (signature : Option String) (buf : String) : VerifyOutcome :=
  match signature with
  | none => VerifyOutcome.passLogged
  | some sig =>
    let elements := jsSplit sig '='
    let signatureHash := elements.getD 1 ""
    let expectedHash := hmacHex secret buf
    if signatureHash ≠ expectedHash then VerifyOutcome.fatal
    else VerifyOutcome.pass

/-! ## Helper lemmas about the split primitive -/

theorem splitOnChar_of_not_mem {c : Char} {l : List Char} (h : c ∉ l) :
    splitOnChar c l = [l] := by
  induction l with
  | nil => rfl
  | cons x xs ih =>
    have hx : x ≠ c := fun hxc => h (hxc ▸ List.mem_cons_self x xs)
    have hxs : c ∉ xs := fun hm => h (List.mem_cons_of_mem _ hm)
    simp [splitOnChar, hx, ih hxs]

theorem splitOnChar_append {c : Char} {pre suf : List Char} (h : c ∉ pre) :
    splitOnChar c (pre ++ c :: suf) = pre :: splitOnChar c suf := by
  induction pre with
  | nil => simp [splitOnChar]
  | cons x xs ih =>
    have hx : x ≠ c := fun hxc => h (hxc ▸ List.mem_cons_self x xs)
    have hxs : c ∉ xs := fun hm => h (List.mem_cons_of_mem _ hm)
    simp [splitOnChar, hx, ih hxs]

theorem jsSplit_sha1_header (d : String) (hd : '=' ∉ d.data) :
    jsSplit ("sha1=" ++ d) '=' = ["sha1", d] := by
  have hdata : ("sha1=" ++ d).data = ['s', 'h', 'a', '1'] ++ '=' :: d.data := rfl
  unfold jsSplit
  rw [hdata, splitOnChar_append (by decide), splitOnChar_of_not_mem hd]
  rfl

/-! ## Claim theorems -/

/-- C1 (counterexample): an event carrying both the `delivery` and the
`postback` tags is routed by the code to the delivery-confirmation handler,
while the priority order the claim states (message, postback, delivery,
read, optin, accountLink) would fire the postback handler first. -/
theorem C1_counterexample :
    (MessagingEvent.mk false false true true false false).postback = true ∧
    (MessagingEvent.mk false false true true false false).delivery = true ∧
    dispatchSpecOrder (MessagingEvent.mk false false true true false false) = Handler.postback ∧
    dispatch (MessagingEvent.mk false false true true false false) = Handler.deliveryConfirmation ∧
    Handler.deliveryConfirmation ≠ Handler.postback := by
  decide

/-- C1 (amended): the event dispatcher routes every event to exactly one
handler, evaluating the tag checks in the fixed priority order `optin`,
`message`, `delivery`, `postback`, `read`, `accountLink`; for an event
carrying multiple tags only the first matching handler in that order
fires, and an event with no tag falls through to the unknown-event log. -/
theorem C1_dispatch_priority (e : MessagingEvent) :
    dispatch e = firstMatch e actualPriority := by
  obtain ⟨o, m, d, p, r, a⟩ := e
  cases o <;> cases m <;> cases d <;> cases p <;> cases r <;> cases a <;> rfl

/-- C4: for every webhook envelope with `object == "page"` the route
performs all handler dispatches of all entries and then — after them, and
without waiting on any triggered search or send — answers HTTP 200; when
`object != "page"` no action is performed and no response is sent. -/
theorem C4_webhook_response (d : WebhookEnvelope) :
    (d.object = "page" →
      webhookPost d = webhookDispatches d ++ [WebhookAction.respond 200] ∧
      ∀ a ∈ webhookDispatches d, ∃ h, a = WebhookAction.handle h) ∧
    (d.object ≠ "page" → webhookPost d = []) := by
  constructor
  · intro hp
    refine ⟨by simp [webhookPost, hp], ?_⟩
    intro a ha
    simp only [webhookDispatches, List.mem_flatten, List.mem_map] at ha
    obtain ⟨l, ⟨pe, hpe, rfl⟩, hal⟩ := ha
    obtain ⟨ev, hev, rfl⟩ := List.mem_map.mp hal
    exact ⟨dispatch ev, rfl⟩
  · intro hp
    simp [webhookPost, hp]

/-- C2: a message-path search result of type `images` with no collection
field produces exactly the typing-off of the shared callback, one caption
text, one image send, one social-proof text scheduled 4000 ms later whose
two random draws lie in [8, 50] and [2, 4], and one link to the wikidata
reference URL scheduled 3000 ms later — two independent timers — and no
collection-related send. -/
theorem C2_message_images (sender : String) (imgs : ImageResult) (s1 s2 : Nat)
    (_hcol : imgs.collection = none) :
    handleSearchResponse sender (Except.ok (SearchResult.images imgs)) s1 s2 =
      [ Send.immediate (SendAction.typingOff sender),
        Send.immediate (SendAction.textMsg sender
          ("Je gaat zo zien: " ++ imgs.label ++ ", " ++ imgs.description)),
        Send.immediate (SendAction.imageMsg sender (imgs.image ++ "?width=800")),
        Send.delayed 4000 (SendAction.textMsg sender (socialProofText s1 s2)),
        Send.delayed 3000 (SendAction.urlMsg sender
          ("http://www.wikidata.org/wiki/" ++ imgs.id)) ] ∧
    8 ≤ lodashRandom 8 50 s1 ∧ lodashRandom 8 50 s1 ≤ 50 ∧
    2 ≤ lodashRandom 2 4 s2 ∧ lodashRandom 2 4 s2 ≤ 4 := by
  refine ⟨rfl, ?_, ?_, ?_, ?_⟩ <;> (unfold lodashRandom; omega)

/-- C2 (witness): the spec's literal example `{id:"Q42",
image:"http://x/y.png", label:"L", description:"D"}` with no collection. -/
theorem C2_witness :
    handleSearchResponse "7" (Except.ok (SearchResult.images
        (ImageResult.mk "Q42" "http://x/y.png" "L" "D" none none ""))) 0 0 =
      [ Send.immediate (SendAction.typingOff "7"),
        Send.immediate (SendAction.textMsg "7" ("Je gaat zo zien: " ++ "L" ++ ", " ++ "D")),
        Send.immediate (SendAction.imageMsg "7" ("http://x/y.png" ++ "?width=800")),
        Send.delayed 4000 (SendAction.textMsg "7" (socialProofText 0 0)),
        Send.delayed 3000 (SendAction.urlMsg "7" ("http://www.wikidata.org/wiki/" ++ "Q42")) ] ∧
    8 ≤ lodashRandom 8 50 0 ∧ lodashRandom 8 50 0 ≤ 50 ∧
    2 ≤ lodashRandom 2 4 0 ∧ lodashRandom 2 4 0 ≤ 4 :=
  C2_message_images "7" (ImageResult.mk "Q42" "http://x/y.png" "L" "D" none none "") 0 0 rfl

/-- C3: a header carrying `sha1=` followed by the HMAC-SHA1 hex digest of
the body under the secret passes; a header carrying any other digest value
yields the fatal verification error; an absent header is only logged and
does not block processing.  (Hex digests never contain `=`, which the two
membership hypotheses record.) -/
theorem C3_signature (hmacHex : String → String → String) (S B d : String)
    (hhex : '=' ∉ (hmacHex S B).data) (hd : '=' ∉ d.data) :
    verifyRequestSignature hmacHex S (some ("sha1=" ++ hmacHex S B)) B = VerifyOutcome.pass ∧
    (d ≠ hmacHex S B →
      verifyRequestSignature hmacHex S (some ("sha1=" ++ d)) B = VerifyOutcome.fatal) ∧
    verifyRequestSignature hmacHex S none B = VerifyOutcome.passLogged := by
  refine ⟨?_, ?_, rfl⟩
  · have hred : verifyRequestSignature hmacHex S (some ("sha1=" ++ hmacHex S B)) B =
        (if ((jsSplit ("sha1=" ++ hmacHex S B) '=').getD 1 "") ≠ hmacHex S B then
          VerifyOutcome.fatal
         else VerifyOutcome.pass) := rfl
    rw [hred, jsSplit_sha1_header _ hhex]
    simp
  · intro hne
    have hred : verifyRequestSignature hmacHex S (some ("sha1=" ++ d)) B =
        (if ((jsSplit ("sha1=" ++ d) '=').getD 1 "") ≠ hmacHex S B then
          VerifyOutcome.fatal
         else VerifyOutcome.pass) := rfl
    rw [hred, jsSplit_sha1_header _ hd]
    simp [hne]

/-- C3 (witness): with a digest function returning `ff00`, the matching
header passes, the header `sha1=1234` is fatal, and no header is only
logged. -/
theorem C3_witness :
    verifyRequestSignature (fun _ _ => "ff00") "secret"
        (some ("sha1=" ++ "ff00")) "body" = VerifyOutcome.pass ∧
    verifyRequestSignature (fun _ _ => "ff00") "secret"
        (some ("sha1=" ++ "1234")) "body" = VerifyOutcome.fatal ∧
    verifyRequestSignature (fun _ _ => "ff00") "secret" none "body" = VerifyOutcome.passLogged := by
  have h := C3_signature (fun _ _ => "ff00") "secret" "body" "1234" (by decide) (by decide)
  exact ⟨h.1, h.2.1 (by decide), h.2.2⟩

/-- C5 (counterexample): the normalised text `1990-2000-2010` contains a
hyphen but splits into three tokens, not two; the handler still calls
`painterByDate("2000", "1990")` from the first two tokens. -/
theorem C5_counterexample :
    '-' ∈ (jsNormalize "1990-2000-2010").data ∧
    (jsSplit (jsNormalize "1990-2000-2010") '-').length ≠ 2 ∧
    (receivedMessage "42" (MessageContent.mk false "m1" (some "1990-2000-2010") none)).2 =
      some (BotCall.painterByDate "2000" "1990") := by
  decide

/-- C5 (amended): for every non-echo, non-quick-reply message whose
normalised text contains a hyphen, the handler splits the text at every
hyphen and calls `painterByDate` with the second and first tokens — the
operands swapped relative to input order, so `1990-2000` triggers
`painterByDate("2000", "1990")`. -/
theorem C5_hyphen_swapped (sender : String) (m : MessageContent) (t : String)
    (hecho : m.is_echo = false) (hqr : m.quick_reply = none)
    (htext : m.text = some t) (hhyp : '-' ∈ (jsNormalize t).data) :
    (receivedMessage sender m).2 =
      some (BotCall.painterByDate ((jsSplit (jsNormalize t) '-').getD 1 "")
        ((jsSplit (jsNormalize t) '-').getD 0 "")) := by
  have ht : t ≠ "" := by
    intro h
    rw [h] at hhyp
    exact absurd hhyp (by decide)
  simp [receivedMessage, hecho, hqr, htext, ht, classifyMessage, hhyp]

/-- C5 (witness): the seeded scenario `1990-2000`. -/
theorem C5_witness :
    (receivedMessage "9" (MessageContent.mk false "m2" (some "1990-2000") none)).2 =
      some (BotCall.painterByDate "2000" "1990") := by
  have h := C5_hyphen_swapped "9" (MessageContent.mk false "m2" (some "1990-2000") none)
    "1990-2000" rfl rfl rfl (by decide)
  exact h.trans (by decide)

/-- C6: a postback-path `images` result carrying a collection name
additionally schedules, 5000 ms later, exactly one text naming the
collection, one link send — to the result's own URL when present, else the
wikidata fallback — and one button send whose postback payload is the
`author` field of the image result. -/
theorem C6_postback_collection (sender : String) (imgs : ImageResult) (s1 s2 : Nat)
    (c : String) (hcol : imgs.collection = some c) (hc : c ≠ "") :
    postbackSearchCallback sender (Except.ok (SearchResult.images imgs)) s1 s2 =
      [ Send.immediate (SendAction.textMsg sender
          ("Je gaat zo zien: " ++ imgs.label ++ ", " ++ imgs.description)),
        Send.immediate (SendAction.imageMsg sender (imgs.image ++ "?width=800")),
        Send.delayed 4000 (SendAction.textMsg sender (socialProofText s1 s2)),
        Send.delayed 5000 (SendAction.textMsg sender
          ("Dit kun je trouwens zien in de collectie van " ++ c)),
        Send.delayed 5000 (SendAction.urlMsg sender (postbackMoreUrl imgs)),
        Send.delayed 5000 (SendAction.buttonMsg sender
          (ButtonSpec.mk "Nog een werk van deze schilder?"
            [ButtonItem.mk "Ja, leuk!" imgs.author])) ] ∧
    (imgs.url = none → postbackMoreUrl imgs = "http://www.wikidata.org/wiki/" ++ imgs.id) ∧
    (∀ u, imgs.url = some u → u ≠ "" → postbackMoreUrl imgs = u) := by
  refine ⟨?_, ?_, ?_⟩
  · simp [postbackSearchCallback, sendImageMessage, hcol, jsTruthyStr, hc]
  · intro hu
    simp [postbackMoreUrl, jsTruthyStr, hu]
  · intro u hu hne
    simp [postbackMoreUrl, jsTruthyStr, hu, hne]

/-- C6 (witness): the spec's `collection:"Rijksmuseum"` example, with no
own URL, so the link goes to the wikidata fallback, and the button payload
is the author field. -/
theorem C6_witness :
    postbackSearchCallback "7" (Except.ok (SearchResult.images
        (ImageResult.mk "Q42" "http://x/y.png" "L" "D" none (some "Rijksmuseum") "Q5598"))) 0 0 =
      [ Send.immediate (SendAction.textMsg "7" ("Je gaat zo zien: " ++ "L" ++ ", " ++ "D")),
        Send.immediate (SendAction.imageMsg "7" ("http://x/y.png" ++ "?width=800")),
        Send.delayed 4000 (SendAction.textMsg "7" (socialProofText 0 0)),
        Send.delayed 5000 (SendAction.textMsg "7"
          ("Dit kun je trouwens zien in de collectie van " ++ "Rijksmuseum")),
        Send.delayed 5000 (SendAction.urlMsg "7" ("http://www.wikidata.org/wiki/" ++ "Q42")),
        Send.delayed 5000 (SendAction.buttonMsg "7"
          (ButtonSpec.mk "Nog een werk van deze schilder?"
            [ButtonItem.mk "Ja, leuk!" "Q5598"])) ] := by
  have h := C6_postback_collection "7"
    (ImageResult.mk "Q42" "http://x/y.png" "L" "D" none (some "Rijksmuseum") "Q5598") 0 0
    "Rijksmuseum" rfl (by decide)
  rw [h.1, h.2.1 rfl]

/-- C7: an echoed message is only logged — the handler performs zero
outbound sends and issues no search-collaborator call. -/
theorem C7_echo_silent (sender : String) (m : MessageContent) (h : m.is_echo = true) :
    receivedMessage sender m = ([], none) := by
  simp [receivedMessage, h]

/-- C7 (witness): a concrete echoed text message produces nothing. -/
theorem C7_witness :
    receivedMessage "7" (MessageContent.mk true "m3" (some "hallo") none) = ([], none) :=
  C7_echo_silent "7" (MessageContent.mk true "m3" (some "hallo") none) rfl

/-- C8: the shared message-path search callback always sends the
typing-off signal first, and on an error completion it sends exactly the
error text as a plain chat reply and returns normally (the embedding is a
total function — no throwing path). -/
theorem C8_callback_contract (sender : String) (result : Except String SearchResult)
    (s1 s2 : Nat) :
    (handleSearchResponse sender result s1 s2).head? =
      some (Send.immediate (SendAction.typingOff sender)) ∧
    (∀ e, result = Except.error e →
      handleSearchResponse sender result s1 s2 =
        [Send.immediate (SendAction.typingOff sender),
         Send.immediate (SendAction.textMsg sender e)]) := by
  refine ⟨rfl, ?_⟩
  intro e he
  subst he
  rfl

/-- C8 (witness): a concrete error completion. -/
theorem C8_witness :
    handleSearchResponse "7" (Except.error "zoekfout") 0 0 =
      [Send.immediate (SendAction.typingOff "7"),
       Send.immediate (SendAction.textMsg "7" "zoekfout")] :=
  (C8_callback_contract "7" (Except.error "zoekfout") 0 0).2 "zoekfout" rfl

/-- C9: every non-echo, non-quick-reply message whose trimmed and
lowercased text equals `utrecht` triggers the `getMonuments` call. -/
theorem C9_utrecht (sender : String) (m : MessageContent) (t : String)
    (hecho : m.is_echo = false) (hqr : m.quick_reply = none)
    (htext : m.text = some t) (hnorm : jsNormalize t = "utrecht") :
    (receivedMessage sender m).2 = some BotCall.getMonuments := by
  have ht : t ≠ "" := by
    intro h
    rw [h] at hnorm
    exact absurd hnorm (by decide)
  have hnoHyphen : ¬ ('-' ∈ ("utrecht" : String).data) := by decide
  simp [receivedMessage, hecho, hqr, htext, ht, classifyMessage, hnorm, hnoHyphen]

/-- C9 (witness): mixed letter case with surrounding whitespace. -/
theorem C9_witness :
    (receivedMessage "7" (MessageContent.mk false "m4" (some " UtReCHT ") none)).2 =
      some BotCall.getMonuments :=
  C9_utrecht "7" (MessageContent.mk false "m4" (some " UtReCHT ") none) " UtReCHT "
    rfl rfl rfl (by decide)

/-- C10: `sendImageMessage` posts the attachment at the image URL with the
literal suffix `?width=800` appended — for every URL, also ones already
carrying a query string — and both the message path and the postback path
emit exactly such a send for an `images` result. -/
theorem C10_width800 (r url : String) (s1 s2 : Nat) (imgs : ImageResult) :
    sendImageMessage r url s1 s2 =
      [ Send.immediate (SendAction.imageMsg r (url ++ "?width=800")),
        Send.delayed 4000 (SendAction.textMsg r (socialProofText s1 s2)) ] ∧
    Send.immediate (SendAction.imageMsg r (imgs.image ++ "?width=800")) ∈
      handleSearchResponse r (Except.ok (SearchResult.images imgs)) s1 s2 ∧
    Send.immediate (SendAction.imageMsg r (imgs.image ++ "?width=800")) ∈
      postbackSearchCallback r (Except.ok (SearchResult.images imgs)) s1 s2 := by
  refine ⟨rfl, ?_, ?_⟩
  · simp [handleSearchResponse, sendImageMessage]
  · simp [postbackSearchCallback, sendImageMessage]

/-- C4 (witness): a one-event page envelope is answered with 200 after its
dispatch, and a non-page envelope produces no response at all. -/
theorem C4_witness :
    webhookPost (WebhookEnvelope.mk "page"
        [PageEntry.mk [MessagingEvent.mk false true false false false false]]) =
      [WebhookAction.handle Handler.message, WebhookAction.respond 200] ∧
    webhookPost (WebhookEnvelope.mk "chat" []) = [] := by
  have h1 := (C4_webhook_response (WebhookEnvelope.mk "page"
    [PageEntry.mk [MessagingEvent.mk false true false false false false]])).1 rfl
  have h2 := (C4_webhook_response (WebhookEnvelope.mk "chat" [])).2 (by decide)
  exact ⟨h1.1.trans (by decide), h2⟩

end Erfgoedbot
